import Mathlib

/-!
Verification of the stream2segment download orchestrator against its
natural-language specification.  Every definition below is a shallow
embedding of a function of the repository (stream2segment/download/main.py,
stream2segment/download/modules/channels.py, stream2segment/cli.py) unless
its doc comment starts with "Modelled from the spec:", which marks code of
the repository that is not shipped under src/ (helpers living in
stream2segment.download.utils and stream2segment.io.db.pdsql) and is
therefore reconstructed from the specification's words.

Machine conventions: datetimes are integers (epoch microseconds unless
stated otherwise), download codes are integers, a missing value (pandas
NaN / NaT / SQL NULL) is `Option.none`.
-/

/-- Modelled from the spec: `custom_download_codes()`
(stream2segment.download.utils, not under src/).  The spec requires four
stable sentinel codes (URL_ERR, MSEED_ERR, TIMESPAN_ERR, TIMESPAN_WARN)
that do not collide with valid HTTP status codes: a reserved range below
zero is used. -/
def custom_download_codes : Int × Int × Int × Int := (-1, -2, -2000, -200)

/-- `URLERR_CODE` as unpacked from `custom_download_codes()`. -/
def URLERR_CODE : Int := custom_download_codes.1

/-- `MSEEDERR_CODE` as unpacked from `custom_download_codes()`. -/
def MSEEDERR_CODE : Int := custom_download_codes.2.1

/-- `OUTTIME_ERR` (TIMESPAN_ERR) as unpacked from `custom_download_codes()`. -/
def OUTTIME_ERR : Int := custom_download_codes.2.2.1

/-- `OUTTIME_WARN` (TIMESPAN_WARN) as unpacked from `custom_download_codes()`. -/
def OUTTIME_WARN : Int := custom_download_codes.2.2.2

/-! ### C5: process exit code of the download command (cli.py) -/

/-- Outcome of one invocation of `stream2segment.main.download` as seen by
the `download` click command (cli.py, lines 258-272):
`success`/`nothingToDo` are the zero returns of `run`,
`terminalError` is a `QuitDownload` built from an Exception, `badArgument`
is the `inputargs.BadArgument` branch, `unexpected` the bare `except`. -/
inductive DownloadOutcome
  | success
  | nothingToDo
  | terminalError
  | badArgument
  | unexpected
deriving DecidableEq

/-- `QuitDownload.log` (download/main.py, lines 101-110): returns 1 when the
instance was built from an Exception (error), 0 when built from a message. -/
def QuitDownload_log (iserror : Bool) : Int := if iserror then 1 else 0

/-- The value `ret` inside the `download` click command: `main.download`
propagates `run`'s exit code (0 for success, `QuitDownload.log` results for
quit conditions), the two `except` branches set 2 and 3. -/
def download_cmd_ret : DownloadOutcome → Int
  | .success => 0
  | .nothingToDo => QuitDownload_log false
  | .terminalError => QuitDownload_log true
  | .badArgument => 2
  | .unexpected => 3

/-- `sys.exit(0 if ret <= 1 else ret)` (cli.py, line 272): the process exit
code of the download command. -/
def download_exit_code (o : DownloadOutcome) : Int :=
  if download_cmd_ret o ≤ 1 then 0 else download_cmd_ret o

/-! ### C7: effective db buffer size (download/main.py, run) -/

/-- `dbbufsize = min(advanced_settings['db_buf_size'], 1)`
(download/main.py, line 1222).  This value is the `buf_size` handed to every
`DbManager`/`dbsyncdf` of the run, in particular to the segment `DbManager`
of `download_save_segments`. -/
def effective_db_bufsize (db_buf_size : Int) : Int := min db_buf_size 1

/-! ### C6: FDSN station POST body (download/modules/channels.py) -/

/-- A negation pattern of the channel filter mini-language: a string whose
first character is the exclamation mark (`v[0:1] == '!'` in the source). -/
def is_negation (s : String) : Bool :=
  match s.data with
  | [] => false
  | c :: _ => c == '!'

/-- Modelled from the spec: `to_fdsn_arg`
(stream2segment.download.utils, not under src/).  Per the spec and the
docstring of `get_post_data`, it joins with a comma the entries that are
not negations (negations are applied client-side only, never sent). -/
def to_fdsn_arg (lst : List String) : String :=
  String.intercalate "," (lst.filter (fun s => !(is_negation s)))

/-- `get_post_data(net, sta, loc, cha, starttime, endtime)`
(download/modules/channels.py, lines 143-175).  For each of the four filter
lists: empty list maps to the wildcard; otherwise `to_fdsn_arg`; the slot
checked against the empty string and replaced by the FDSN empty-location
marker is the slot with index 3 (`if i == 3 and not parsearg`). -/
def get_post_data (net sta loc cha : List String)
    (starttime endtime : Option String) : String :=
  let mk : Nat → List String → String := fun i lst =>
    if lst.isEmpty then "*"
    else
      let parsearg := to_fdsn_arg lst
      if i == 3 && parsearg == "" then "--" else parsearg
  let args := [mk 0 net, mk 1 sta, mk 2 loc, mk 3 cha,
               starttime.getD "*", endtime.getD "*"]
  String.intercalate " " args

/-! ### C1: retry-aware download planning (download/main.py, prepare_for_download) -/

/-- The retry flags of the user configuration, one per failure class
(arguments `retry_seg_not_found` .. `retry_timespan_warn` of
`prepare_for_download`). -/
structure RetryFlags where
  seg_not_found : Bool
  url_err : Bool
  mseed_err : Bool
  client_err : Bool
  server_err : Bool
  timespan_err : Bool
  timespan_warn : Bool
deriving DecidableEq

/-- One row of the existing `segments` db table as loaded by
`prepare_for_download` (id, channel_id, event_id, request_start,
request_end, download_code); the download code is nullable. -/
structure DbSegment where
  id : Nat
  channel_id : Nat
  event_id : Nat
  request_start : Int
  request_end : Int
  download_code : Option Int
deriving DecidableEq

/-- One candidate segment row entering `prepare_for_download`
(channel_id, event_id, arrival_time in epoch microseconds). -/
structure CandidateSegment where
  channel_id : Nat
  event_id : Nat
  arrival_time : Int
deriving DecidableEq

/-- The retry mask of `prepare_for_download` (download/main.py, lines
813-829): a db download code matches iff the flag of its class is set.
NULL codes match `seg_not_found`; `between(400, 499.9999)` and
`between(500, 599.9999)` are the client/server classes (codes are
integers); comparisons against NULL are false as in pandas. -/
def retry_mask (f : RetryFlags) (dcode : Option Int) : Bool :=
  (f.seg_not_found && dcode.isNone)
  || (f.url_err && dcode == some URLERR_CODE)
  || (f.mseed_err && dcode == some MSEEDERR_CODE)
  || (f.client_err && (match dcode with
      | some c => decide (400 ≤ c) && decide (c ≤ 499)
      | none => false))
  || (f.server_err && (match dcode with
      | some c => decide (500 ≤ c) && decide (c ≤ 599)
      | none => false))
  || (f.timespan_err && dcode == some OUTTIME_ERR)
  || (f.timespan_warn && dcode == some OUTTIME_WARN)

/-- Pandas `Series.dt.round('s')` on an epoch-microsecond timestamp:
round to the nearest whole second, ties to the even second.  Returns
microseconds again. -/
def round_to_second (t : Int) : Int :=
  let q := Int.fdiv t 1000000
  let r := Int.fmod t 1000000
  let q' :=
    if 2 * r < 1000000 then q
    else if 2 * r > 1000000 then q + 1
    else if q % 2 = 0 then q else q + 1
  q' * 1000000

/-- The new request window of `prepare_for_download` (lines 845-847):
`(arrival_time - timespan[0] minutes).round('s')` and
`(arrival_time + timespan[1] minutes).round('s')` (minutes given as
integers, times in epoch microseconds). -/
def new_request_bounds (timespan : Int × Int) (arrival_time : Int) : Int × Int :=
  (round_to_second (arrival_time - timespan.1 * 60000000),
   round_to_second (arrival_time + timespan.2 * 60000000))

/-- Modelled from the spec: the `mergeupdate(left, right, matching_cols,
merge_cols)` primitive (stream2segment.io.db.pdsql, not under src/) copies
the merge columns onto each left row from the right row with the same
natural key, leaving rows without a match untouched.  Here it reduces to
looking up the (unique) db row of a candidate's (channel_id, event_id). -/
def lookup_db_segment (db : List DbSegment) (c : CandidateSegment) : Option DbSegment :=
  db.find? (fun s => s.channel_id == c.channel_id && s.event_id == c.event_id)

/-- The per-candidate keep decision of `prepare_for_download` (lines
829-860): a candidate with no db row keeps its initial retry=True flag; one
with a db row is kept iff the retry mask matches its stored code, or the
stored request bounds differ from the newly computed ones. -/
def keep_candidate (f : RetryFlags) (timespan : Int × Int) (db : List DbSegment)
    (c : CandidateSegment) : Bool :=
  let tb := new_request_bounds timespan c.arrival_time
  match lookup_db_segment db c with
  | none => true
  | some s => retry_mask f s.download_code
      || !(s.request_start == tb.1 && s.request_end == tb.2)

/-- `prepare_for_download` (download/main.py, lines 773-891), reduced to
its observable output: the pruned candidate batch (the rows whose retry
flag survives the filter on line 860). -/
def prepare_for_download (f : RetryFlags) (timespan : Int × Int)
    (db : List DbSegment) (candidates : List CandidateSegment) : List CandidateSegment :=
  candidates.filter (keep_candidate f timespan db)

/-- The retry set as worded by the claim: NULL belongs to it iff
`seg_not_found` is retried, a code in 400-499 iff `client_err`, one in
500-599 iff `server_err`, and each sentinel code iff its own flag. -/
def claimed_retry_set (f : RetryFlags) (dcode : Option Int) : Prop :=
  (f.seg_not_found = true ∧ dcode = none)
  ∨ (f.url_err = true ∧ dcode = some URLERR_CODE)
  ∨ (f.mseed_err = true ∧ dcode = some MSEEDERR_CODE)
  ∨ (f.client_err = true ∧ ∃ c, dcode = some c ∧ 400 ≤ c ∧ c ≤ 499)
  ∨ (f.server_err = true ∧ ∃ c, dcode = some c ∧ 500 ≤ c ∧ c ≤ 599)
  ∨ (f.timespan_err = true ∧ dcode = some OUTTIME_ERR)
  ∨ (f.timespan_warn = true ∧ dcode = some OUTTIME_WARN)

/-! ### C4: event-channel merge (download/main.py, merge_events_stations) -/

/-- One row of the events dataframe entering `merge_events_stations`
(id, magnitude, latitude, longitude, time in epoch seconds, depth_km). -/
structure EventRow where
  id : Nat
  magnitude : ℚ
  latitude : ℚ
  longitude : ℚ
  time : Int
  depth_km : ℚ
deriving DecidableEq

/-- One station row (as deduplicated from the channels dataframe on
`station_id`): id, latitude, longitude, start_time (epoch seconds) and
nullable end_time. -/
structure StationRow where
  station_id : Nat
  latitude : ℚ
  longitude : ℚ
  start_time : Int
  end_time : Option Int
deriving DecidableEq

/-- One channel row of the channels dataframe (channel id and owning
station id). -/
structure ChannelRow where
  channel_id : Nat
  station_id : Nat
deriving DecidableEq

/-- Modelled from the spec: `get_search_radius(mag, minmag, maxmag,
minmag_radius, maxmag_radius)` (stream2segment.download.utils, not under
src/): clamp the magnitude to [minmag, maxmag] and interpolate the radius
linearly between the two radia. -/
def get_search_radius (minmag maxmag minmag_radius maxmag_radius mag : ℚ) : ℚ :=
  if mag ≤ minmag then minmag_radius
  else if maxmag ≤ mag then maxmag_radius
  else minmag_radius
    + (maxmag_radius - minmag_radius) * (mag - minmag) / (maxmag - minmag)

/-- The station qualification condition of `merge_events_stations`
(download/main.py, lines 714-716):
`(l2d <= max_radius) & (start_time <= event.time) &
(end_time is null | end_time >= event.time + 1 day)`.
`l2d` is the great-circle distance in degrees of this station from the
event; one day is 86400 seconds. -/
def merge_station_condition (max_radius l2d : ℚ) (s : StationRow) (evtime : Int) : Bool :=
  decide (l2d ≤ max_radius) && decide (s.start_time ≤ evtime)
  && (match s.end_time with
      | none => true
      | some e => decide (evtime + 86400 ≤ e))

/-- `merge_events_stations` (download/main.py, lines 664-770) reduced to
the produced (channel_id, event_id) candidate pairs: for every event, keep
the stations passing `merge_station_condition` for the radius of the
event's magnitude, expand them to their channels, and drop rows whose
travel-time lookup is NaN (`tttable(depth, 0, distance)`, modelled as an
`Option`-valued handle per the spec's travel-time interface).
`l2d` models `locations2degrees(sta_lat, sta_lon, ev_lat, ev_lon)`. -/
def merge_events_stations (minmag maxmag minmag_radius maxmag_radius : ℚ)
    (l2d : ℚ → ℚ → ℚ → ℚ → ℚ) (tttable : ℚ → ℚ → Option ℚ)
    (events : List EventRow) (stations : List StationRow)
    (channels : List ChannelRow) : List (Nat × Nat) :=
  events.flatMap (fun e =>
    let max_radius := get_search_radius minmag maxmag minmag_radius maxmag_radius e.magnitude
    let ok := stations.filter (fun s =>
      merge_station_condition max_radius (l2d s.latitude s.longitude e.latitude e.longitude)
        s e.time)
    channels.filterMap (fun c =>
      match ok.find? (fun s => s.station_id == c.station_id) with
      | none => none
      | some s =>
        match tttable e.depth_km (l2d s.latitude s.longitude e.latitude e.longitude) with
        | none => none
        | some _ => some (c.channel_id, e.id)))

/-! ### C2, C3: waveform downloader response handling
(download/main.py, download_save_segments) -/

/-- One record of the mini-binary decoder output
(`mseedunpack` result tuple), reduced to the fields the classification
branches on: `err?` (decoder error), the data length (`if data:`), and
the `out_of_requested_range?` flag. -/
structure MSRecord where
  hasErr : Bool
  dataLen : Nat
  outOfTime : Bool
deriving DecidableEq

/-- The body of an HTTP dataselect response as seen by
`download_save_segments`: empty, undecodable (`MSeedError` raised by
`mseedunpack`), or a decoded map from `net.sta.loc.cha` id to record. -/
inductive MSBody
  | emptyBody
  | badBody
  | records (rs : List (String × MSRecord))
deriving DecidableEq

/-- The result of one grouped POST as delivered by the async fetcher with
`raise_http_err=False`: a transport error (`exc` set, `data, code, msg`
all None), or a status code with a body. -/
inductive GroupResult
  | excResult
  | okResult (code : Int) (body : MSBody)
deriving DecidableEq

/-- The decoder record matched to a planned row: its channel id resolved
through `chaid2mseedid` then looked up in the unpacked dict. -/
def matched_record (c2m : Nat → Option String) (rs : List (String × MSRecord))
    (chaid : Nat) : Option MSRecord :=
  match c2m chaid with
  | none => none
  | some mseedid =>
    match rs.find? (fun p => p.1 == mseedid) with
    | none => none
    | some p => some p.2

/-- The per-row classification loop of `download_save_segments`
(download/main.py, lines 1065-1104), carrying the mutable `code` variable
(initially the HTTP status): rows with no matched record keep a NULL code;
a record with a decoder error yields `MSEEDERR_CODE`; an out-of-range
record reassigns `code` to `OUTTIME_WARN` (with data) or `OUTTIME_ERR`
(without) before writing it; any other record writes the current value of
`code`. -/
def classify_rows (c2m : Nat → Option String) (rs : List (String × MSRecord)) :
    Int → List Nat → List (Option Int)
  | _, [] => []
  | code, chaid :: rest =>
    match matched_record c2m rs chaid with
    | none => none :: classify_rows c2m rs code rest
    | some r =>
      if r.hasErr then some MSEEDERR_CODE :: classify_rows c2m rs code rest
      else
        let code' := if r.outOfTime then
            (if r.dataLen ≠ 0 then OUTTIME_WARN else OUTTIME_ERR) else code
        some code' :: classify_rows c2m rs code' rest

/-- Outcome of one request group in `download_save_segments`: deferred to
the next grouping pass (413 fallback), or a per-row assignment of download
codes (aligned with the group's rows). -/
inductive GroupOutcome
  | deferred
  | assigned (codes : List (Option Int))
deriving DecidableEq

/-- The per-group response handling of `download_save_segments`
(download/main.py, lines 1019-1129): defer on 413 when the group has more
than one row and this is not the last pass; transport errors assign
`URLERR_CODE` to all rows; HTTP >= 400 assigns the status to all rows;
an empty body assigns the status to all rows; an undecodable body assigns
`MSEEDERR_CODE` to all rows; otherwise the rows are classified one by one
by `classify_rows` starting from the HTTP status. -/
def process_group (islast : Bool) (c2m : Nat → Option String)
    (resp : GroupResult) (rows : List Nat) : GroupOutcome :=
  match resp with
  | .excResult => .assigned (rows.map (fun _ => some URLERR_CODE))
  | .okResult code body =>
    if code == 413 && decide (rows.length > 1) && !islast then .deferred
    else if 400 ≤ code then .assigned (rows.map (fun _ => some code))
    else
      match body with
      | .emptyBody => .assigned (rows.map (fun _ => some code))
      | .badBody => .assigned (rows.map (fun _ => some MSEEDERR_CODE))
      | .records rs => .assigned (classify_rows c2m rs code rows)

/-- The two grouping key lists of `download_save_segments` (lines
986-989): the primary pass groups by (datacenter_id, request_start,
request_end), the 413 fallback pass by (datacenter_id, request_start,
request_end, channel_id), i.e. one request per segment. -/
def segment_groupsby : List (List String) :=
  [["datacenter_id", "request_start", "request_end"],
   ["datacenter_id", "request_start", "request_end", "channel_id"]]

/-! ### Helper lemmas -/

set_option maxHeartbeats 1000000 in
lemma retry_mask_iff (f : RetryFlags) (dcode : Option Int) :
    retry_mask f dcode = true ↔ claimed_retry_set f dcode := by
  cases dcode with
  | none =>
    simp [retry_mask, claimed_retry_set]
  | some c =>
    simp only [retry_mask, claimed_retry_set, Bool.or_eq_true, Bool.and_eq_true,
      Option.isNone_some, Bool.false_eq_true, and_false, false_or, beq_iff_eq,
      Option.some.injEq, decide_eq_true_eq, false_and, or_false, exists_eq_left,
      exists_eq_left', reduceCtorEq, and_false, and_assoc]
    tauto

/-- C1: for every candidate segment matching an existing db row on
(channel_id, event_id), the planner keeps it for re-download iff the
stored download code belongs to the configured retry set (NULL counted as
seg_not_found, 400-499 as client_err, 500-599 as server_err) or the
stored (request_start, request_end) differ from the newly computed
request bounds; every candidate with no existing row is always kept. -/
theorem prepare_for_download_retry_iff (f : RetryFlags) (timespan : Int × Int)
    (db : List DbSegment) (candidates : List CandidateSegment) (c : CandidateSegment) :
    c ∈ prepare_for_download f timespan db candidates ↔
      c ∈ candidates ∧
      (match lookup_db_segment db c with
       | none => True
       | some s => claimed_retry_set f s.download_code
           ∨ (s.request_start, s.request_end) ≠ new_request_bounds timespan c.arrival_time) := by
  unfold prepare_for_download keep_candidate
  rw [List.mem_filter]
  rcases hfind : lookup_db_segment db c with _ | s
  · simp [hfind]
  · simp only [Bool.or_eq_true, Bool.not_eq_true', Bool.and_eq_true, beq_iff_eq,
      and_congr_right_iff]
    intro _
    constructor
    · rintro (hmask | hbounds)
      · exact Or.inl ((retry_mask_iff f s.download_code).mp hmask)
      · refine Or.inr (fun hEq => ?_)
        have h1 := congrArg Prod.fst hEq
        have h2 := congrArg Prod.snd hEq
        simp only at h1 h2
        rw [h1, h2] at hbounds
        simp at hbounds
    · rintro (hmask | hbounds)
      · exact Or.inl ((retry_mask_iff f s.download_code).mpr hmask)
      · refine Or.inr ?_
        by_contra hcontra
        rw [Bool.not_eq_false, Bool.and_eq_true, beq_iff_eq, beq_iff_eq] at hcontra
        exact hbounds (Prod.ext hcontra.1 hcontra.2)

/-- C5 counterexample: contrary to the claim, a terminal download error
(`QuitDownload` built from an Exception, internal return 1) makes the
download command exit with code 0, not 1: cli.py line 272 collapses every
return below 2 to 0. -/
theorem download_exit_code_cex :
    download_exit_code .terminalError = 0 ∧ download_exit_code .terminalError ≠ 1 := by
  decide

/-- C5 amended: the download command's process exit code is 0 on success,
on "nothing to download" and on any terminal download error (the internal
return 1 is collapsed to 0), 2 on invalid user input, and 3 on an
unexpected internal error. -/
theorem download_exit_codes_amended :
    download_exit_code .success = 0 ∧ download_exit_code .nothingToDo = 0
    ∧ download_exit_code .terminalError = 0
    ∧ download_exit_code .badArgument = 2 ∧ download_exit_code .unexpected = 3 := by
  decide

/-- C6: evaluating `get_post_data` at the input of its own docstring
example (empty location selected, negation-only channel list in another
run).  The docstring promises `* ABC -- HH?,HN? * *`, but the code checks
slot 3 (channel) instead of slot 2 (location): the empty location is sent
verbatim (empty field, double blank), while a channel list containing only
negations is wrongly turned into the `--` marker. -/
theorem get_post_data_location_bug :
    get_post_data [] ["ABC"] [""] ["!A*", "HH?", "HN?"] none none = "* ABC  HH?,HN? * *"
    ∧ get_post_data [] [] [] ["!A*"] none none = "* * * -- * *" := by
  constructor <;> decide

/-- C7: evaluating the effective db buffer size at the failing input.  For
a configured `db_buf_size` of 10 the code passes `min(10, 1) = 1` to the
segment `DbManager`, so the flush boundary is 1 row, not the configured
10 (the clamp direction is inverted: `min` where the intent is `max`). -/
theorem effective_db_bufsize_eval :
    effective_db_bufsize 10 = 1 ∧ effective_db_bufsize 10 ≠ 10 := by
  decide

/-- C3: a request group is deferred to the second (per-channel) pass iff
its response is an HTTP 413, the group has more than one row and the
current pass is not the last; a 413 group of size one is never deferred
and gets 413 recorded as the download code of its segment, with no
further fallback; the fallback pass regroups by
(datacenter_id, request_start, request_end, channel_id). -/
theorem download_413_defer_iff (islast : Bool) (c2m : Nat → Option String)
    (resp : GroupResult) (rows : List Nat) :
    (process_group islast c2m resp rows = .deferred ↔
      (∃ body, resp = .okResult 413 body) ∧ 1 < rows.length ∧ islast = false)
    ∧ (∀ body chaid, process_group islast c2m (.okResult 413 body) [chaid] =
      .assigned [some 413])
    ∧ segment_groupsby =
      [["datacenter_id", "request_start", "request_end"],
       ["datacenter_id", "request_start", "request_end", "channel_id"]] := by
  refine ⟨?_, ?_, rfl⟩
  · cases resp with
    | excResult => simp [process_group]
    | okResult code body =>
      simp only [process_group]
      by_cases h413 : code == 413 && decide (rows.length > 1) && !islast
      · rw [if_pos h413]
        simp only [Bool.and_eq_true, beq_iff_eq, Bool.not_eq_true', decide_eq_true_eq] at h413
        simp only [h413.1.1, h413.1.2, h413.2, gt_iff_lt]
        simp
      · rw [if_neg h413]
        constructor
        · intro hcontra
          exfalso
          revert hcontra
          split
          · simp
          · cases body <;> simp
        · rintro ⟨⟨body', hresp⟩, hlen, hlast⟩
          injection hresp with hcode hbody
          exfalso
          apply h413
          rw [hcode, hlast]
          simp [hlen]
  · intro body chaid
    simp only [process_group, List.length_singleton]
    norm_num

/-- The timespan code an out-of-range record receives: `OUTTIME_WARN` with
data, `OUTTIME_ERR` without. -/
def outtime_code (r : MSRecord) : Int :=
  if r.dataLen ≠ 0 then OUTTIME_WARN else OUTTIME_ERR

/-- One step of the mutable `code` variable of the classification loop of
`download_save_segments`: a matched record that has no decoder error and
is out of range reassigns `code` to its timespan code, every other row
leaves it unchanged. -/
def code_step (c2m : Nat → Option String) (rs : List (String × MSRecord))
    (code : Int) (chaid : Nat) : Int :=
  match matched_record c2m rs chaid with
  | some r => if !r.hasErr && r.outOfTime then outtime_code r else code
  | none => code

/-- The value of the loop's `code` variable after processing a list of
earlier rows, starting from the HTTP status. -/
def running_code (c2m : Nat → Option String) (rs : List (String × MSRecord))
    (code : Int) (earlier : List Nat) : Int :=
  earlier.foldl (code_step c2m rs) code

/-- The chaid-to-mseedid map of the C2 counterexample group: channel 1 is
`A`, channel 2 is `B`. -/
def c2m_cex : Nat → Option String :=
  fun n => if n == 1 then some "A" else if n == 2 then some "B" else none

/-- The decoded records of the C2 counterexample group: `A` is out of the
requested range with data, `B` is a plain in-range record. -/
def rs_cex : List (String × MSRecord) :=
  [("A", ⟨false, 5, true⟩), ("B", ⟨false, 3, false⟩)]

/-- C2 counterexample: in a group with HTTP status 200 whose first row
matches an out-of-range record with data, the second row matches a plain
in-range record and should get download code 200 per the claim
("independently of the other records in the same group"); the code instead
writes the leaked `code` variable, i.e. `OUTTIME_WARN`, to it. -/
theorem download_code_group_leak_cex :
    process_group false c2m_cex (.okResult 200 (.records rs_cex)) [1, 2] =
      .assigned [some OUTTIME_WARN, some OUTTIME_WARN]
    ∧ OUTTIME_WARN ≠ 200 := by
  decide

/-- C2 amended: for every planned row of a group with non-empty decodable
body and HTTP status < 400: no matched record leaves the download code
NULL; a record with a decoder error yields MSEED_ERR; an out-of-range
record yields TIMESPAN_WARN (with data) or TIMESPAN_ERR (without);
otherwise the row receives the group's running code - the HTTP status
unless an earlier row of the group matched an out-of-range record, in
which case the timespan code of the most recent such record. -/
theorem classify_rows_amended (c2m : Nat → Option String)
    (rs : List (String × MSRecord)) (code : Int) (rows : List Nat)
    (i : Nat) (chaid : Nat) (h : rows.get? i = some chaid) :
    (classify_rows c2m rs code rows).get? i = some (
      match matched_record c2m rs chaid with
      | none => none
      | some r =>
        if r.hasErr then some MSEEDERR_CODE
        else if r.outOfTime then some (outtime_code r)
        else some (running_code c2m rs code (rows.take i))) := by
  induction rows generalizing code i with
  | nil => simp at h
  | cons x rest ih =>
    cases i with
    | zero =>
      rw [List.get?_cons_zero, Option.some.injEq] at h
      subst h
      rcases hm : matched_record c2m rs x with _ | r
      · simp [classify_rows, hm]
      · by_cases he : r.hasErr
        · simp [classify_rows, hm, he]
        · by_cases ho : r.outOfTime
          · simp [classify_rows, hm, he, ho, outtime_code, running_code]
          · simp [classify_rows, hm, he, ho, running_code]
    | succ j =>
      rw [List.get?_cons_succ] at h
      have htake : (x :: rest).take (j + 1) = x :: rest.take j := rfl
      rcases hm : matched_record c2m rs x with _ | r
      · have hstep : code_step c2m rs code x = code := by
          simp [code_step, hm]
        rw [show classify_rows c2m rs code (x :: rest)
              = none :: classify_rows c2m rs code rest by simp [classify_rows, hm]]
        rw [List.get?_cons_succ, ih code j h, htake]
        simp [running_code, List.foldl_cons, hstep]
      · by_cases he : r.hasErr
        · have hstep : code_step c2m rs code x = code := by
            simp [code_step, hm, he]
          rw [show classify_rows c2m rs code (x :: rest)
                = some MSEEDERR_CODE :: classify_rows c2m rs code rest by
              simp [classify_rows, hm, he]]
          rw [List.get?_cons_succ, ih code j h, htake]
          simp [running_code, List.foldl_cons, hstep]
        · by_cases ho : r.outOfTime
          · have hstep : code_step c2m rs code x = outtime_code r := by
              simp [code_step, hm, he, ho]
            rw [show classify_rows c2m rs code (x :: rest)
                  = some (outtime_code r)
                    :: classify_rows c2m rs (outtime_code r) rest by
                simp [classify_rows, hm, he, ho, outtime_code]]
            rw [List.get?_cons_succ, ih (outtime_code r) j h, htake]
            simp [running_code, List.foldl_cons, hstep]
          · have hstep : code_step c2m rs code x = code := by
              simp [code_step, hm, he, ho]
            rw [show classify_rows c2m rs code (x :: rest)
                  = some code :: classify_rows c2m rs code rest by
                simp [classify_rows, hm, he, ho]]
            rw [List.get?_cons_succ, ih code j h, htake]
            simp [running_code, List.foldl_cons, hstep]

/-- C2 amended witness: the amended statement evaluated on the
counterexample group: row 2 (index 1) matches a plain record and receives
the running code `OUTTIME_WARN` leaked by row 1. -/
theorem classify_rows_amended_witness :
    (classify_rows c2m_cex rs_cex 200 [1, 2]).get? 1 = some (
      match matched_record c2m_cex rs_cex 2 with
      | none => none
      | some r =>
        if r.hasErr then some MSEEDERR_CODE
        else if r.outOfTime then some (outtime_code r)
        else some (running_code c2m_cex rs_cex 200 ([1, 2].take 1))) :=
  classify_rows_amended c2m_cex rs_cex 200 [1, 2] 1 2 (by decide)

lemma merge_station_condition_iff (max_radius dist : ℚ) (s : StationRow) (evtime : Int) :
    merge_station_condition max_radius dist s evtime = true ↔
      (dist ≤ max_radius ∧ s.start_time ≤ evtime ∧
       (s.end_time = none ∨ ∃ et, s.end_time = some et ∧ evtime + 86400 ≤ et)) := by
  cases hs : s.end_time with
  | none => simp [merge_station_condition, hs, and_assoc]
  | some et => simp [merge_station_condition, hs, and_assoc]

/-- C4: a (channel, event) pair is produced by the event-channel merge iff
the channel's station is within the search radius of the event's magnitude,
opened at the event time, and either open-ended or closing at least one day
after the event time; in particular (second conjunct) an event exactly at
`station.end_time - 1 day` passes the station condition and one 1 second
later fails it.  The travel-time handle is assumed total (NaN lookups,
which drop rows later, do not occur). -/
theorem merge_events_stations_pair_iff
    (minmag maxmag minmag_radius maxmag_radius : ℚ) (l2d : ℚ → ℚ → ℚ → ℚ → ℚ)
    (tttable : ℚ → ℚ → Option ℚ)
    (events : List EventRow) (stations : List StationRow) (channels : List ChannelRow)
    (chid evid : Nat)
    (h_tt : ∀ d x, (tttable d x).isSome = true) :
    ((chid, evid) ∈ merge_events_stations minmag maxmag minmag_radius maxmag_radius
        l2d tttable events stations channels ↔
      ∃ e ∈ events, ∃ c ∈ channels, ∃ s ∈ stations,
        e.id = evid ∧ c.channel_id = chid ∧ c.station_id = s.station_id ∧
        l2d s.latitude s.longitude e.latitude e.longitude
          ≤ get_search_radius minmag maxmag minmag_radius maxmag_radius e.magnitude ∧
        s.start_time ≤ e.time ∧
        (s.end_time = none ∨ ∃ et, s.end_time = some et ∧ e.time + 86400 ≤ et))
    ∧ merge_station_condition 5 1 ⟨1, 0, 0, 0, some 86400⟩ 0 = true
    ∧ merge_station_condition 5 1 ⟨1, 0, 0, 0, some 86400⟩ 1 = false := by
  refine ⟨?_, by decide, by decide⟩
  simp only [merge_events_stations, List.mem_flatMap, List.mem_filterMap]
  constructor
  · rintro ⟨e, he, c, hc, hfc⟩
    rcases hfind : (stations.filter (fun s =>
        merge_station_condition
          (get_search_radius minmag maxmag minmag_radius maxmag_radius e.magnitude)
          (l2d s.latitude s.longitude e.latitude e.longitude) s e.time)).find?
        (fun s => s.station_id == c.station_id) with _ | s
    · rw [hfind] at hfc
      simp at hfc
    · rw [hfind] at hfc
      dsimp only at hfc
      obtain ⟨t, ht⟩ := Option.isSome_iff_exists.mp
        (h_tt e.depth_km (l2d s.latitude s.longitude e.latitude e.longitude))
      rw [ht] at hfc
      simp only [Option.some.injEq, Prod.mk.injEq] at hfc
      have hmem := List.mem_of_find?_eq_some hfind
      have hpred := List.find?_some hfind
      rw [List.mem_filter] at hmem
      rw [beq_iff_eq] at hpred
      rw [merge_station_condition_iff] at hmem
      exact ⟨e, he, c, hc, s, hmem.1, hfc.2, hfc.1, hpred.symm,
             hmem.2.1, hmem.2.2.1, hmem.2.2.2⟩
  · rintro ⟨e, he, c, hc, s, hs, hid, hch, hcs, hdist, hstime, hetime⟩
    refine ⟨e, he, c, hc, ?_⟩
    have hsmem : s ∈ stations.filter (fun s =>
        merge_station_condition
          (get_search_radius minmag maxmag minmag_radius maxmag_radius e.magnitude)
          (l2d s.latitude s.longitude e.latitude e.longitude) s e.time) := by
      rw [List.mem_filter]
      exact ⟨hs, (merge_station_condition_iff _ _ _ _).mpr ⟨hdist, hstime, hetime⟩⟩
    have hsome : ((stations.filter (fun s =>
        merge_station_condition
          (get_search_radius minmag maxmag minmag_radius maxmag_radius e.magnitude)
          (l2d s.latitude s.longitude e.latitude e.longitude) s e.time)).find?
        (fun s => s.station_id == c.station_id)).isSome = true := by
      rw [List.find?_isSome]
      exact ⟨s, hsmem, by rw [beq_iff_eq, hcs]⟩
    obtain ⟨s', hfind⟩ := Option.isSome_iff_exists.mp hsome
    rw [hfind]
    dsimp only
    obtain ⟨t, ht⟩ := Option.isSome_iff_exists.mp
      (h_tt e.depth_km (l2d s'.latitude s'.longitude e.latitude e.longitude))
    rw [ht]
    simp [hch, hid]

/-- C4 witness: the happy-path scenario (magnitude 5 with radius schedule
(3, 7, 1, 10), station at 1 degree, open-ended validity) produces the
candidate pair. -/
theorem merge_events_stations_pair_witness :
    (3, 7) ∈ merge_events_stations 3 7 1 10 (fun _ _ _ _ => 1) (fun _ _ => some 10)
      [⟨7, 5, 0, 1, 0, 10⟩] [⟨2, 0, 1, -5, none⟩] [⟨3, 2⟩] :=
  ((merge_events_stations_pair_iff 3 7 1 10 (fun _ _ _ _ => 1) (fun _ _ => some 10)
      [⟨7, 5, 0, 1, 0, 10⟩] [⟨2, 0, 1, -5, none⟩] [⟨3, 2⟩] 3 7
      (fun _ _ => rfl)).1).mpr
    ⟨⟨7, 5, 0, 1, 0, 10⟩, by simp, ⟨3, 2⟩, by simp, ⟨2, 0, 1, -5, none⟩, by simp,
     rfl, rfl, rfl, by norm_num [get_search_radius], by norm_num, Or.inl rfl⟩

/-! ### C8: station duplicates and the routing validator
(download/modules/channels.py, save_stations_and_channels) -/

/-- One row of the channels dataframe entering
`save_stations_and_channels`, restricted to the columns the station
deduplication reads: network, station, start_time, datacenter_id,
location, channel. -/
structure ChanFull where
  net : String
  sta : String
  stime : Int
  dcid : Int
  loc : String
  cha : String
deriving DecidableEq

/-- The station natural key (network, station, start_time). -/
def sta_key3 (r : ChanFull) : String × String × Int := (r.net, r.sta, r.stime)

/-- The key of the first `drop_duplicates` call
(network, station, start_time, datacenter_id). -/
def sta_key4 (r : ChanFull) : String × String × Int × Int :=
  (r.net, r.sta, r.stime, r.dcid)

/-- Pandas `drop_duplicates(subset=key)` (keep the first row of every key). -/
def dedup_by_key {α : Type} {κ : Type} [DecidableEq κ] (key : α → κ)
    (l : List α) : List α :=
  l.foldl (fun acc x => if acc.any (fun y => key y == key x) then acc else acc ++ [x]) []

/-- `sta_df` of `save_stations_and_channels` (line 347): one row per
(net, sta, start_time, datacenter). -/
def sta_df (rows : List ChanFull) : List ChanFull := dedup_by_key sta_key4 rows

/-- Pandas `duplicated(subset=[net, sta, stime], keep=False)` applied to
`sta_df` (line 349): the rows whose station natural key occurs at least
twice. -/
def sta_df_dupes (rows : List ChanFull) : List ChanFull :=
  let l := sta_df rows
  l.filter (fun r => decide (2 ≤ (l.filter (fun x => sta_key3 x == sta_key3 r)).length))

/-- The `isin(dc_id, net, sta, loc, cha)` signature of the Eida routing
validator. -/
def EidaIsin : Type := Int → String → String → String → String → Bool

/-- The stable ascending-by-datacenter insertion used to model
`group_df.sort_values([STA_DCID])` (line 356). -/
def insert_by_dcid (x : ChanFull) : List ChanFull → List ChanFull
  | [] => [x]
  | y :: ys => if y.dcid ≤ x.dcid then y :: insert_by_dcid x ys else x :: y :: ys

/-- `sort_values([STA_DCID])` on one duplicate group. -/
def sort_by_dcid (l : List ChanFull) : List ChanFull :=
  l.foldl (fun acc x => insert_by_dcid x acc) []

/-- The duplicate groups of lines 354-355 (`groupby` on the station
natural key, `sort=False`: keys in order of first appearance), each sorted
by datacenter id. -/
def dupe_groups (rows : List ChanFull) : List (List ChanFull) :=
  let dupes := sta_df_dupes rows
  (dedup_by_key id (dupes.map sta_key3)).map
    (fun k => sort_by_dcid (dupes.filter (fun r => sta_key3 r == k)))

/-- The rows on which `eidavalidator.isin` is actually invoked (lines
357-361): in each group, every row up to and including the first accepted
one. -/
def validator_calls (v : EidaIsin) (rows : List ChanFull) : List ChanFull :=
  (dupe_groups rows).flatMap (fun g =>
    g.take ((g.takeWhile (fun r => !(v r.dcid r.net r.sta r.loc r.cha))).length + 1))

/-- The kept duplicate rows (`keep_indices`, lines 353-361): the first row
of each sorted group accepted by the validator, if any. -/
def validator_kept (v : EidaIsin) (rows : List ChanFull) : List ChanFull :=
  (dupe_groups rows).filterMap
    (fun g => g.find? (fun r => v r.dcid r.net r.sta r.loc r.cha))

/-- The station rows reaching `dbsyncdf` in `save_stations_and_channels`
(lines 347-389): the deduplicated `sta_df` minus the duplicate rows that
neither the validator (when present) nor the db datacenter lookup (when
absent) confirms. -/
def saved_station_rows (rows : List ChanFull) (validator : Option EidaIsin)
    (db : List ((String × String × Int) × Int)) : List ChanFull :=
  let l := sta_df rows
  let dupes := sta_df_dupes rows
  if dupes.isEmpty then l
  else
    let dropped : List ChanFull := match validator with
      | some v => dupes.filter (fun r => !((validator_kept v rows).contains r))
      | none => dupes.filter (fun r =>
          match db.find? (fun p => p.1 == sta_key3 r) with
          | some p => !(p.2 == r.dcid)
          | none => true)
    l.filter (fun r => !(dropped.contains r))

lemma dedup_by_key_pairwise {α κ : Type} [DecidableEq κ] (key : α → κ) (l : List α) :
    (dedup_by_key key l).Pairwise (fun a b => key a ≠ key b) := by
  suffices h : ∀ acc : List α, acc.Pairwise (fun a b => key a ≠ key b) →
      (l.foldl (fun acc x =>
        if acc.any (fun y => key y == key x) then acc else acc ++ [x]) acc).Pairwise
        (fun a b => key a ≠ key b) by
    exact h [] (by simp)
  induction l with
  | nil => intro acc hacc; simpa using hacc
  | cons x xs ih =>
    intro acc hacc
    simp only [List.foldl_cons]
    by_cases hmem : acc.any (fun y => key y == key x) = true
    · rw [if_pos hmem]; exact ih acc hacc
    · rw [if_neg hmem]
      apply ih
      rw [List.pairwise_append]
      refine ⟨hacc, by simp, ?_⟩
      intro a ha b hb
      rw [List.mem_singleton] at hb
      subst hb
      intro hEq
      apply hmem
      rw [List.any_eq_true]
      exact ⟨a, ha, by rw [beq_iff_eq]; exact hEq⟩

lemma sta_df_pairwise (rows : List ChanFull) :
    (sta_df rows).Pairwise (fun a b => sta_key4 a ≠ sta_key4 b) :=
  dedup_by_key_pairwise sta_key4 rows

lemma key3_eq_key4_ne_dcid {a b : ChanFull} (h3 : sta_key3 a = sta_key3 b)
    (h4 : sta_key4 a ≠ sta_key4 b) : a.dcid ≠ b.dcid := by
  intro hd
  apply h4
  simp only [sta_key3, Prod.mk.injEq] at h3
  simp only [sta_key4, Prod.mk.injEq]
  exact ⟨h3.1, h3.2.1, h3.2.2, hd⟩

lemma sta_df_dupes_nil_iff (rows : List ChanFull) :
    sta_df_dupes rows = [] ↔
      ¬ ∃ r1 ∈ sta_df rows, ∃ r2 ∈ sta_df rows,
        sta_key3 r1 = sta_key3 r2 ∧ r1.dcid ≠ r2.dcid := by
  constructor
  · intro hnil
    rintro ⟨r1, h1, r2, h2, hk, hd⟩
    have hr1 : r1 ∈ sta_df_dupes rows := by
      rw [sta_df_dupes, List.mem_filter]
      refine ⟨h1, ?_⟩
      rw [decide_eq_true_eq]
      have hm1 : r1 ∈ (sta_df rows).filter (fun x => sta_key3 x == sta_key3 r1) := by
        rw [List.mem_filter]
        exact ⟨h1, by rw [beq_iff_eq]⟩
      have hm2 : r2 ∈ (sta_df rows).filter (fun x => sta_key3 x == sta_key3 r1) := by
        rw [List.mem_filter]
        exact ⟨h2, by rw [beq_iff_eq]; exact hk.symm⟩
      have hne : r1 ≠ r2 := fun hEq => hd (by rw [hEq])
      have hcard : 2 ≤ ((sta_df rows).filter
          (fun x => sta_key3 x == sta_key3 r1)).toFinset.card := by
        rw [Nat.succ_le_iff, Finset.one_lt_card]
        exact ⟨r1, List.mem_toFinset.mpr hm1, r2, List.mem_toFinset.mpr hm2, hne⟩
      exact le_trans hcard (List.toFinset_card_le _)
    rw [hnil] at hr1
    exact absurd hr1 (List.not_mem_nil r1)
  · intro hno
    by_contra hne
    obtain ⟨r, hr⟩ := List.exists_mem_of_ne_nil _ hne
    rw [sta_df_dupes, List.mem_filter, decide_eq_true_eq] at hr
    rcases hfl : (sta_df rows).filter (fun x => sta_key3 x == sta_key3 r) with _ | ⟨a, _ | ⟨b, t⟩⟩
    · rw [hfl] at hr; simp at hr
    · rw [hfl] at hr; simp at hr
    · have hpw : (a :: b :: t).Pairwise (fun a b => sta_key4 a ≠ sta_key4 b) := by
        rw [← hfl]
        exact (sta_df_pairwise rows).sublist (List.filter_sublist _)
      have hab : sta_key4 a ≠ sta_key4 b := (List.pairwise_cons.mp hpw).1 b (by simp)
      have ha : a ∈ (sta_df rows).filter (fun x => sta_key3 x == sta_key3 r) := by
        rw [hfl]; simp
      have hb : b ∈ (sta_df rows).filter (fun x => sta_key3 x == sta_key3 r) := by
        rw [hfl]; simp
      rw [List.mem_filter, beq_iff_eq] at ha hb
      exact hno ⟨a, ha.1, b, hb.1, ha.2.trans hb.2.symm, key3_eq_key4_ne_dcid
        (ha.2.trans hb.2.symm) hab⟩

/-- C8: the routing validator's `isin` predicate is invoked only when at
least two rows of the deduplicated station set share
(network, station, start_time) across distinct data centers; when no such
duplicate pair exists, no `isin` call is made and the saved station set
equals the plain deduplicated set whatever validator (or none) is
supplied. -/
theorem routing_validator_consulted (rows : List ChanFull)
    (db : List ((String × String × Int) × Int)) :
    (∀ v : EidaIsin, validator_calls v rows ≠ [] →
      ∃ r1 ∈ sta_df rows, ∃ r2 ∈ sta_df rows,
        sta_key3 r1 = sta_key3 r2 ∧ r1.dcid ≠ r2.dcid)
    ∧ ((¬ ∃ r1 ∈ sta_df rows, ∃ r2 ∈ sta_df rows,
        sta_key3 r1 = sta_key3 r2 ∧ r1.dcid ≠ r2.dcid) →
      (∀ v : EidaIsin, validator_calls v rows = [])
      ∧ ∀ validator : Option EidaIsin,
          saved_station_rows rows validator db = sta_df rows) := by
  have hcalls : ∀ v : EidaIsin, sta_df_dupes rows = [] → validator_calls v rows = [] := by
    intro v hd
    simp [validator_calls, dupe_groups, hd, dedup_by_key]
  constructor
  · intro v hne
    by_contra hno
    exact hne (hcalls v ((sta_df_dupes_nil_iff rows).mpr hno))
  · intro hno
    have hd : sta_df_dupes rows = [] := (sta_df_dupes_nil_iff rows).mpr hno
    refine ⟨fun v => hcalls v hd, fun validator => ?_⟩
    simp [saved_station_rows, hd]

/-- A single-station input for the C8 witness: no duplicated
(net, sta, start_time) key. -/
def rows_nodup : List ChanFull :=
  [⟨"IV", "ACER", 0, 1, "", "HHZ"⟩, ⟨"IV", "ARCI", 0, 2, "", "HHZ"⟩]

/-- An arbitrary concrete validator for the C8 witness. -/
def isin_any : EidaIsin := fun _ _ _ _ _ => true

/-- C8 witness: on a duplicate-free input the saved station set ignores the
validator and no `isin` call happens. -/
theorem routing_validator_witness :
    saved_station_rows rows_nodup (some isin_any) [] = sta_df rows_nodup
    ∧ validator_calls isin_any rows_nodup = [] :=
  ⟨(((routing_validator_consulted rows_nodup []).2 (by decide)).2 (some isin_any)),
   (((routing_validator_consulted rows_nodup []).2 (by decide)).1 isin_any)⟩

/-! ### C9: station updates exclude inventory_xml
(download/modules/channels.py and download/main.py, save_inventories) -/

/-- The Station table columns of the data model (spec section 3). -/
def station_table_columns : List String :=
  ["id", "datacenter_id", "network", "station", "latitude", "longitude",
   "start_time", "end_time", "inventory_xml"]

/-- Modelled from the spec: `shared_colnames(table, dataframe, pkey=False)`
(stream2segment.io.db.pdsql, not under src/): the dataframe columns that
are also columns of the table, the primary key excluded. -/
def shared_colnames (table_cols pkey_cols df_cols : List String) : List String :=
  df_cols.filter (fun c => table_cols.contains c && !(pkey_cols.contains c))

/-- The update column list handed to `dbsyncdf` for stations
(download/modules/channels.py, lines 383-386): when update mode is off the
empty list (no update); when on, the shared non-pkey columns minus
`inventory_xml`. -/
def station_update_columns (update : Bool) (df_cols : List String) : List String :=
  if update then
    (shared_colnames station_table_columns ["id"] df_cols).filter
      (fun c => !(c == "inventory_xml"))
  else []

/-- A stored Station row (the columns an update may touch). -/
structure StationRecord where
  datacenter_id : Int
  network : String
  station : String
  latitude : ℚ
  longitude : ℚ
  start_time : Int
  end_time : Option Int
  inventory_xml : Option (List Nat)
deriving DecidableEq

/-- Applying a column-list update to a stored station: each listed column
takes the incoming value, every other column keeps the stored one. -/
def apply_station_update (cols : List String) (incoming old : StationRecord) :
    StationRecord where
  datacenter_id :=
    if cols.contains "datacenter_id" then incoming.datacenter_id else old.datacenter_id
  network := if cols.contains "network" then incoming.network else old.network
  station := if cols.contains "station" then incoming.station else old.station
  latitude := if cols.contains "latitude" then incoming.latitude else old.latitude
  longitude := if cols.contains "longitude" then incoming.longitude else old.longitude
  start_time := if cols.contains "start_time" then incoming.start_time else old.start_time
  end_time := if cols.contains "end_time" then incoming.end_time else old.end_time
  inventory_xml :=
    if cols.contains "inventory_xml" then incoming.inventory_xml else old.inventory_xml

/-- The update column list of the dedicated inventory phase
(`save_inventories`, download/main.py line 1168:
`DbManager(session, Station.id, update=[Station.inventory_xml.key], ...)`). -/
def save_inventories_update_columns : List String := ["inventory_xml"]

/-- C9: whatever dataframe columns are present and whether update mode is
on or off, `inventory_xml` is never among the station update columns, so
applying the station/channel persistence update leaves every stored
station's `inventory_xml` unchanged; it is touched only by the dedicated
inventory phase, whose update list is exactly `[inventory_xml]`. -/
theorem station_update_excludes_inventory (update : Bool) (df_cols : List String)
    (incoming old : StationRecord) :
    "inventory_xml" ∉ station_update_columns update df_cols
    ∧ (apply_station_update (station_update_columns update df_cols) incoming old).inventory_xml
        = old.inventory_xml
    ∧ save_inventories_update_columns = ["inventory_xml"] := by
  have hnot : "inventory_xml" ∉ station_update_columns update df_cols := by
    intro hmem
    cases update with
    | false => simp [station_update_columns] at hmem
    | true =>
      rw [station_update_columns] at hmem
      simp only [if_true] at hmem
      rw [List.mem_filter] at hmem
      simp at hmem
  refine ⟨hnot, ?_, rfl⟩
  rw [apply_station_update]
  have : (station_update_columns update df_cols).contains "inventory_xml" = false := by
    rw [List.contains_eq_any_beq]
    rw [List.any_eq_false]
    intro c hc
    rw [beq_iff_eq]
    intro hEq
    subst hEq
    exact hnot hc
  simp only [this]
  simp only [Bool.false_eq_true, if_false]

/-! ### C10: memory watchdog of the wrapped async fetcher
(download/main.py, read_async) -/

/-- Observable events of the `read_async` wrapper generator: a result
yielded to the caller, a memory sample (`process.memory_percent()`), and
the terminal memory-overflow abort (`raise QuitDownload(MemoryError(...))`),
both carrying the sampled percentage. -/
inductive FetchEvent (α : Type)
  | emit (r : α)
  | memcheck (pct : ℚ)
  | aborted (pct : ℚ)
deriving DecidableEq

/-- The loop of `read_async` for an in-range threshold (download/main.py,
lines 124-137): each result of the wrapped iterator is yielded, then, when
its 0-based position is a multiple of 10 (`zip` with `cycle(range(10))`
pairs the first result with 0), the process memory is sampled and the
iteration aborts when the sample exceeds the threshold.  `mem i` is the
memory percentage that a sample taken after emitting result `i` reads. -/
def read_async_watchdog_go {α : Type} (thr : ℚ) (mem : Nat → ℚ) :
    List α → Nat → List (FetchEvent α)
  | [], _ => []
  | r :: rest, count =>
    .emit r ::
      (if count % 10 == 0 then
        .memcheck (mem count) ::
          (if thr < mem count then [.aborted (mem count)]
           else read_async_watchdog_go thr mem rest (count + 1))
      else read_async_watchdog_go thr mem rest (count + 1))

/-- `read_async` (download/main.py, lines 113-141): with a threshold in
(0, 100) the watchdog loop runs; otherwise the results are forwarded with
no memory check at all. -/
def read_async_trace {α : Type} (thr : ℚ) (mem : Nat → ℚ)
    (results : List α) : List (FetchEvent α) :=
  if 0 < thr ∧ thr < 100 then read_async_watchdog_go thr mem results 0
  else results.map .emit

/-- Number of results emitted in a trace. -/
def emit_count {α : Type} (tr : List (FetchEvent α)) : Nat :=
  tr.countP (fun e => match e with | .emit _ => true | _ => false)

/-- Number of memory samples in a trace. -/
def check_count {α : Type} (tr : List (FetchEvent α)) : Nat :=
  tr.countP (fun e => match e with | .memcheck _ => true | _ => false)

lemma watchdog_go_check_after_emit {α : Type} (thr : ℚ) (mem : Nat → ℚ)
    (l : List α) (count : Nat) :
    ∀ i pct, (read_async_watchdog_go thr mem l count).get? i
        = some (.memcheck pct) →
      ∃ r j, i = j + 1
        ∧ (read_async_watchdog_go thr mem l count).get? j = some (.emit r) := by
  induction l generalizing count with
  | nil =>
    intro i pct h
    simp [read_async_watchdog_go] at h
  | cons x rest ih =>
    intro i pct h
    rw [read_async_watchdog_go] at h ⊢
    by_cases hc : count % 10 == 0
    · rw [if_pos hc] at h ⊢
      by_cases habort : thr < mem count
      · rw [if_pos habort] at h ⊢
        obtain _ | _ | _ | j := i
        · simp at h
        · exact ⟨x, 0, rfl, rfl⟩
        · simp at h
        · simp at h
      · rw [if_neg habort] at h ⊢
        obtain _ | _ | j := i
        · simp at h
        · exact ⟨x, 0, rfl, rfl⟩
        · rw [List.get?_cons_succ, List.get?_cons_succ] at h
          obtain ⟨r, j', hj, hget⟩ := ih (count + 1) j pct h
          exact ⟨r, j' + 2, by omega, by
            rw [List.get?_cons_succ, List.get?_cons_succ]; exact hget⟩
    · rw [if_neg hc] at h ⊢
      obtain _ | j := i
      · simp at h
      · rw [List.get?_cons_succ] at h
        obtain ⟨r, j', hj, hget⟩ := ih (count + 1) j pct h
        exact ⟨r, j' + 1, by omega, by rw [List.get?_cons_succ]; exact hget⟩

lemma emit_count_nil {α : Type} : emit_count ([] : List (FetchEvent α)) = 0 := rfl

lemma emit_count_cons_emit {α : Type} (r : α) (t : List (FetchEvent α)) :
    emit_count (.emit r :: t) = emit_count t + 1 := by
  simp [emit_count, List.countP_cons]

lemma emit_count_cons_check {α : Type} (p : ℚ) (t : List (FetchEvent α)) :
    emit_count (.memcheck p :: t) = emit_count t := by
  simp [emit_count, List.countP_cons]

lemma emit_count_cons_abort {α : Type} (p : ℚ) (t : List (FetchEvent α)) :
    emit_count (.aborted p :: t) = emit_count t := by
  simp [emit_count, List.countP_cons]

lemma check_count_nil {α : Type} : check_count ([] : List (FetchEvent α)) = 0 := rfl

lemma check_count_cons_emit {α : Type} (r : α) (t : List (FetchEvent α)) :
    check_count (.emit r :: t) = check_count t := by
  simp [check_count, List.countP_cons]

lemma check_count_cons_check {α : Type} (p : ℚ) (t : List (FetchEvent α)) :
    check_count (.memcheck p :: t) = check_count t + 1 := by
  simp [check_count, List.countP_cons]

lemma check_count_cons_abort {α : Type} (p : ℚ) (t : List (FetchEvent α)) :
    check_count (.aborted p :: t) = check_count t := by
  simp [check_count, List.countP_cons]

lemma countP_range_succ_shift (p : Nat → Bool) (e : Nat) :
    (List.range (e + 1)).countP p
      = (if p 0 then 1 else 0) + (List.range e).countP (fun i => p (i + 1)) := by
  rw [List.range_succ_eq_map, List.countP_cons, List.countP_map, Nat.add_comm]
  rfl

lemma watchdog_go_check_count {α : Type} (thr : ℚ) (mem : Nat → ℚ)
    (l : List α) (count : Nat) :
    check_count (read_async_watchdog_go thr mem l count)
      = (List.range (emit_count (read_async_watchdog_go thr mem l count))).countP
          (fun i => (count + i) % 10 == 0) := by
  induction l generalizing count with
  | nil => simp [read_async_watchdog_go, check_count_nil, emit_count_nil]
  | cons x rest ih =>
    rw [read_async_watchdog_go]
    by_cases hc : count % 10 == 0
    · rw [if_pos hc]
      by_cases habort : thr < mem count
      · rw [if_pos habort]
        rw [emit_count_cons_emit, emit_count_cons_check, emit_count_cons_abort,
            emit_count_nil, check_count_cons_emit, check_count_cons_check,
            check_count_cons_abort, check_count_nil]
        simp [List.range_succ, List.countP_cons, List.countP_nil, hc]
      · rw [if_neg habort]
        rw [emit_count_cons_emit, emit_count_cons_check,
            check_count_cons_emit, check_count_cons_check]
        rw [ih (count + 1)]
        rw [countP_range_succ_shift]
        simp only [Nat.add_zero, hc, if_pos]
        have harg : (fun i => (count + (i + 1)) % 10 == 0)
            = (fun i => (count + 1 + i) % 10 == 0) := by
          funext i
          congr 2
          omega
        rw [harg]
        omega
    · rw [if_neg hc]
      rw [emit_count_cons_emit, check_count_cons_emit]
      rw [ih (count + 1)]
      rw [countP_range_succ_shift]
      simp only [Nat.add_zero]
      rw [if_neg (by simpa using hc)]
      have harg : (fun i => (count + (i + 1)) % 10 == 0)
          = (fun i => (count + 1 + i) % 10 == 0) := by
        funext i
        congr 2
        omega
      rw [harg]
      omega

lemma watchdog_go_abort {α : Type} (thr : ℚ) (mem : Nat → ℚ)
    (l : List α) (count : Nat) :
    ∀ pct, FetchEvent.aborted pct ∈ read_async_watchdog_go thr mem l count →
      thr < pct ∧ ∃ pre r, read_async_watchdog_go thr mem l count
        = pre ++ [.memcheck pct, .aborted pct]
        ∧ pre.getLast? = some (.emit r) := by
  induction l generalizing count with
  | nil =>
    intro pct h
    simp [read_async_watchdog_go] at h
  | cons x rest ih =>
    intro pct h
    rw [read_async_watchdog_go] at h ⊢
    by_cases hc : count % 10 == 0
    · rw [if_pos hc] at h ⊢
      by_cases habort : thr < mem count
      · rw [if_pos habort] at h ⊢
        simp only [List.mem_cons, List.not_mem_nil, or_false] at h
        rcases h with h | h | h
        · cases h
        · cases h
        · cases h
          exact ⟨habort, [.emit x], x, rfl, rfl⟩
      · rw [if_neg habort] at h ⊢
        simp only [List.mem_cons] at h
        rcases h with h | h | h
        · exact absurd h (by simp)
        · exact absurd h (by simp)
        · obtain ⟨hthr, pre, r, heq, hlast⟩ := ih (count + 1) pct h
          rcases hpre : pre with _ | ⟨p0, ps⟩
          · rw [hpre] at hlast
            simp at hlast
          · refine ⟨hthr, .emit x :: .memcheck (mem count) :: pre, r, ?_, ?_⟩
            · rw [heq, hpre]
              rfl
            · rw [hpre]
              rw [List.getLast?_cons_cons, List.getLast?_cons_cons]
              rw [hpre] at hlast
              exact hlast
    · rw [if_neg hc] at h ⊢
      simp only [List.mem_cons] at h
      rcases h with h | h
      · exact absurd h (by simp)
      · obtain ⟨hthr, pre, r, heq, hlast⟩ := ih (count + 1) pct h
        rcases hpre : pre with _ | ⟨p0, ps⟩
        · rw [hpre] at hlast
          simp at hlast
        · refine ⟨hthr, .emit x :: pre, r, ?_, ?_⟩
          · rw [heq, hpre]
            rfl
          · rw [hpre]
            rw [List.getLast?_cons_cons]
            rw [hpre] at hlast
            exact hlast

/-- C10: the memory-watchdog-wrapped fetcher (i) performs no memory check
at all when the threshold is out of (0, 100): the trace is exactly the
emitted results; (ii) every memory sample in a trace comes right after an
emitted result; (iii) with an in-range threshold the number of samples
equals the number of emitted results whose 0-based position is a multiple
of 10 (one sample per 10 results, starting at the first); (iv) an abort
carries a sample above the threshold, terminates the trace right after
that sample, and the sample itself directly follows the emit of the
triggering result - so the triggering result is always delivered before
the abort. -/
theorem read_async_watchdog (thr : ℚ) (mem : Nat → ℚ) {α : Type}
    (results : List α) :
    ((thr ≤ 0 ∨ 100 ≤ thr) →
      read_async_trace thr mem results = results.map .emit)
    ∧ (∀ i pct, (read_async_trace thr mem results).get? i
          = some (.memcheck pct) →
        ∃ r j, i = j + 1
          ∧ (read_async_trace thr mem results).get? j = some (.emit r))
    ∧ (0 < thr ∧ thr < 100 →
        check_count (read_async_trace thr mem results)
          = (List.range (emit_count (read_async_trace thr mem results))).countP
              (fun i => i % 10 == 0))
    ∧ (∀ pct, FetchEvent.aborted pct ∈ read_async_trace thr mem results →
        thr < pct ∧ ∃ pre r, read_async_trace thr mem results
          = pre ++ [.memcheck pct, .aborted pct]
          ∧ pre.getLast? = some (.emit r)) := by
  by_cases hrange : 0 < thr ∧ thr < 100
  · have htr : read_async_trace thr mem results
        = read_async_watchdog_go thr mem results 0 := by
      rw [read_async_trace, if_pos hrange]
    refine ⟨?_, ?_, ?_, ?_⟩
    · intro hout
      exfalso
      rcases hout with hout | hout
      · exact absurd hrange.1 (not_lt.mpr hout)
      · exact absurd hrange.2 (not_lt.mpr hout)
    · rw [htr]
      exact watchdog_go_check_after_emit thr mem results 0
    · intro _
      rw [htr]
      have h := watchdog_go_check_count thr mem results 0
      simpa using h
    · rw [htr]
      exact watchdog_go_abort thr mem results 0
  · have htr : read_async_trace thr mem results = results.map .emit := by
      rw [read_async_trace, if_neg hrange]
    refine ⟨fun _ => htr, ?_, ?_, ?_⟩
    · intro i pct h
      rw [htr, List.get?_map] at h
      cases hres : results.get? i with
      | none => rw [hres] at h; cases h
      | some r => rw [hres] at h; cases h
    · intro hin
      exact absurd hin hrange
    · intro pct h
      rw [htr] at h
      obtain ⟨r, _, hEq⟩ := List.mem_map.mp h
      cases hEq

/-- C10 witness: with threshold 50 and a constant memory reading of 90 the
fetcher aborts, and the theorem instantiates: the abort follows the sample
which follows the delivered triggering result. -/
theorem read_async_watchdog_witness :
    (50 : ℚ) < 90 ∧ ∃ pre r, read_async_trace 50 (fun _ => 90) [1, 2, 3]
      = pre ++ [.memcheck 90, .aborted 90] ∧ pre.getLast? = some (.emit r) :=
  (read_async_watchdog 50 (fun _ => 90) [1, 2, 3]).2.2.2 90 (by decide)
